import Mathlib

/-!
Verification of the booking-flow core of `Reservation_Framer.tsx`
(Bookla calendar component): availability normalization, calendar grid
construction, the availability-fetch state updates, form validation and
the two-attempt booking submission cascade.  Every definition is a
shallow embedding of the corresponding JavaScript in the source file;
machine numbers are modelled as `Nat`/`Int`, JS objects keyed by strings
as association lists in insertion order, and network I/O as explicit
oracles.
-/

namespace Reservation

/-! ## Calendar arithmetic

JS `Date` values that the component builds with `new Date(year, month,
day)` are date-only local timestamps.  We model them by their civil
calendar fields together with day-number arithmetic (Gregorian,
proleptic), which is exactly what comparing two midnight `Date`s or
calling `setDate` amounts to. -/

/-- Days from civil date (year, month 1-12, day) to 1970-01-01, the
standard Gregorian day-number algorithm; mirrors the epoch arithmetic
inside JS `Date`. -/
def daysFromCivil (y m d : Int) : Int :=
  let y2 : Int := y - (if m ≤ 2 then 1 else 0)
  let era : Int := Int.fdiv y2 400
  let yoe : Int := y2 - era * 400
  let mp : Int := Int.fmod (m + 9) 12
  let doy : Int := Int.fdiv (153 * mp + 2) 5 + d - 1
  let doe : Int := yoe * 365 + Int.fdiv yoe 4 - Int.fdiv yoe 100 + doy
  era * 146097 + doe - 719468

/-- Inverse of `daysFromCivil`: civil (year, month 1-12, day) of a day
number. -/
def civilFromDays (z0 : Int) : Int × Int × Int :=
  let z : Int := z0 + 719468
  let era : Int := Int.fdiv z 146097
  let doe : Int := z - era * 146097
  let yoe : Int :=
    Int.fdiv (doe - Int.fdiv doe 1460 + Int.fdiv doe 36524 - Int.fdiv doe 146096) 365
  let y : Int := yoe + era * 400
  let doy : Int := doe - (365 * yoe + Int.fdiv yoe 4 - Int.fdiv yoe 100)
  let mp : Int := Int.fdiv (5 * doy + 2) 153
  let d : Int := doy - Int.fdiv (153 * mp + 2) 5 + 1
  let m : Int := mp + (if mp < 10 then 3 else -9)
  (y + (if m ≤ 2 then 1 else 0), m, d)

/-- Date-only JS `Date`: year, 0-based month (as JS `getMonth`), day of
month (as JS `getDate`). -/
structure JDate where
  year : Int
  month0 : Int
  day : Int
  deriving DecidableEq, Repr

/-- Day number of a date-only `Date` (its time value divided by the
milliseconds of one day); comparing two date-only `Date`s with `<`
compares these numbers. -/
def dayNumber (d : JDate) : Int :=
  daysFromCivil d.year (d.month0 + 1) d.day

/-- Model of `new Date(year, month, day)` including JS field
normalization: out-of-range months roll the year and out-of-range days
roll the month (so `new Date(y, m + 1, 0)` is the last day of month
`m`). -/
def mkDate (y m0 d : Int) : JDate :=
  let total : Int := y * 12 + m0
  let ny : Int := Int.fdiv total 12
  let nm0 : Int := Int.fmod total 12
  let days : Int := daysFromCivil ny (nm0 + 1) 1 + (d - 1)
  let c := civilFromDays days
  ⟨c.1, c.2.1 - 1, c.2.2⟩

/-- Model of `setDate(getDate() + i)` on a date-only `Date`. -/
def addDaysJ (d : JDate) (i : Int) : JDate :=
  mkDate d.year d.month0 (d.day + i)

/-- JS `getDay`: 0 = Sunday.  1970-01-01 (day number 0) was a
Thursday. -/
def jsGetDay (d : JDate) : Int :=
  Int.fmod (dayNumber d + 4) 7

/-- Left-pad a numeral to two digits, as `String(x).padStart(2, "0")`
for the month/day numerals involved. -/
def pad2 (n : Int) : String :=
  if 0 ≤ n ∧ n < 10 then "0" ++ toString n else toString n

/-- Source `formatDateString`: `"${year}-${month+1 padded}-${day
padded}"`. -/
def formatDateString (d : JDate) : String :=
  toString d.year ++ "-" ++ pad2 (d.month0 + 1) ++ "-" ++ pad2 d.day

/-- Source `isDateInPast`: truncate both dates to calendar days and
compare strictly.  `today` is passed explicitly (the source reads the
ambient clock). -/
def isDateInPastB (d today : JDate) : Bool :=
  decide (dayNumber d < dayNumber today)

/-- Source `isToday`: all three calendar fields agree. -/
def isTodayB (d today : JDate) : Bool :=
  decide (d.year = today.year) && decide (d.month0 = today.month0) &&
    decide (d.day = today.day)

/-! ## Parsing slot timestamps

The availability normalization sorts slots by `new
Date(slot.startTime).getTime()`.  We model `getTime` for the ISO-8601
UTC shapes the provider returns (`YYYY-MM-DDTHH:MM[:SS][Z]`); strings
outside this grammar get key 0 (the sort key is all the comparator
uses).  Fractional seconds and numeric offsets are outside the modelled
grammar. -/

/-- Split a character list at every occurrence of `c` (JS
`String.prototype.split` on a one-character separator). -/
def splitListOn (c : Char) : List Char → List (List Char)
  | [] => [[]]
  | x :: xs =>
    let r := splitListOn c xs
    if x = c then [] :: r
    else
      match r with
      | [] => [[x]]
      | h :: t => (x :: h) :: t

/-- Source `slot.startTime.split("T")[0]`: the characters before the
first `T` (textual date truncation, no timezone conversion). -/
def splitDatePart (s : String) : String :=
  String.mk (s.toList.takeWhile (fun c => c ≠ 'T'))

/-- JS `String.prototype.trim`: drop leading and trailing whitespace
(structural model over the character list). -/
def jsTrim (s : String) : String :=
  String.mk (((s.toList.dropWhile Char.isWhitespace).reverse.dropWhile
    Char.isWhitespace).reverse)

/-- JS `String.prototype.toLowerCase` on the ASCII range. -/
def jsToLower (s : String) : String :=
  String.mk (s.toList.map Char.toLower)

/-- Interpret a non-empty all-digit character list as a `Nat`. -/
def digitsToNat? (l : List Char) : Option Nat :=
  if l ≠ [] ∧ l.all Char.isDigit then
    some (l.foldl (fun acc c => acc * 10 + (c.toNat - 48)) 0)
  else none

/-- Milliseconds since the epoch of an ISO-8601 UTC timestamp, the
model of `new Date(s).getTime()` on the provider's slot strings. -/
def jsGetTime? (s : String) : Option Int :=
  match splitListOn 'T' s.toList with
  | [dpart, tpart0] =>
    (match splitListOn '-' dpart with
     | [ys, ms, ds] =>
       (do
         let y ← digitsToNat? ys
         let m ← digitsToNat? ms
         let d ← digitsToNat? ds
         let tpart := if tpart0.getLast? = some 'Z' then tpart0.dropLast else tpart0
         let hms ←
           match splitListOn ':' tpart with
           | [hs, mis] => do
             let h ← digitsToNat? hs
             let mi ← digitsToNat? mis
             pure (h, mi, 0)
           | [hs, mis, ses] => do
             let h ← digitsToNat? hs
             let mi ← digitsToNat? mis
             let se ← digitsToNat? ses
             pure (h, mi, se)
           | _ => none
         pure (daysFromCivil (Int.ofNat y) (Int.ofNat m) (Int.ofNat d) * 86400000 +
           Int.ofNat (hms.1 * 3600000 + hms.2.1 * 60000 + hms.2.2 * 1000)))
     | _ => none)
  | _ => none

/-- Sort key used by the normalization comparator. -/
def jsTimeKey (s : String) : Int :=
  (jsGetTime? s).getD 0

/-! ## Availability normalization (source `fetchAvailability`) -/

/-- Slot as stored in the availability map: the pushed object
`{startTime, endTime, resourceId}`. -/
structure TimeSlot where
  startTime : String
  endTime : Option String
  resourceId : String
  deriving DecidableEq, Repr

/-- Slot as it appears in the provider response (under a resource id
key). -/
structure RawSlot where
  startTime : String
  endTime : Option String
  deriving DecidableEq, Repr

/-- JS object keyed by date strings, in key-insertion order. -/
abbrev AvailMap := List (String × List TimeSlot)

/-- Lookup in the availability object (`availableSlots[dateString]`). -/
def lookupSlots (m : AvailMap) (d : String) : Option (List TimeSlot) :=
  match m with
  | [] => none
  | (k, l) :: rest => if k = d then some l else lookupSlots rest d

/-- Append a slot under a date key, creating the key at the end when
absent — exactly the effect of `if (!g[date]) g[date] = [];
g[date].push(slot)` on a JS object. -/
def addSlotTo (m : AvailMap) (d : String) (s : TimeSlot) : AvailMap :=
  match m with
  | [] => [(d, [s])]
  | (k, l) :: rest =>
    if k = d then (k, l ++ [s]) :: rest else (k, l) :: addSlotTo rest d s

/-- Grouping pass of the normalization: iterate the `times` object's
`(resourceId, slots)` entries, skip slots with a falsy `startTime`, and
push each remaining slot under the date part of its `startTime`. -/
def groupSlots (times : List (String × List RawSlot)) : AvailMap :=
  times.foldl
    (fun m p =>
      p.2.foldl
        (fun m r =>
          if r.startTime = "" then m
          else addSlotTo m (splitDatePart r.startTime)
            ⟨r.startTime, r.endTime, p.1⟩)
        m)
    []

/-- Insert a slot into a list already ascending by `jsTimeKey`, after
any equal keys — the stable insertion JS `Array.prototype.sort` with
comparator `getTime(a) - getTime(b)` performs. -/
def insertSlotSorted (x : TimeSlot) : List TimeSlot → List TimeSlot
  | [] => [x]
  | y :: ys =>
    if jsTimeKey y.startTime ≤ jsTimeKey x.startTime then
      y :: insertSlotSorted x ys
    else x :: y :: ys

/-- Stable sort of one date's slot list by start time. -/
def sortSlots (l : List TimeSlot) : List TimeSlot :=
  l.foldl (fun acc x => insertSlotSorted x acc) []

/-- Full normalization performed by `fetchAvailability` on a successful
response: group by the date part of `startTime`, then sort each date's
list ascending by start time. -/
def normalizeTimes (times : List (String × List RawSlot)) : AvailMap :=
  (groupSlots times).map (fun p => (p.1, sortSlots p.2))

/-! ## Availability-fetch state updates

The component keeps `selectedServiceId`, `availableSlots`, `loading`
and `error` in React state.  The fetch effect body performs, in order:
`setLoading(true); setError(null)`, then awaits the request, then
either `setAvailableSlots(normalized)` (success) or `setError(msg)`
(failure), and `setLoading(false)` in `finally`.  The service `select`
only calls `setSelectedServiceId`.  State setters commit in the order
the events occur, so an interleaved execution is a fold of these
events; the effect has no cleanup and no request identity, so nothing
distinguishes a stale resolution from a fresh one. -/

structure WidgetFetchState where
  selectedServiceId : String
  availableSlots : AvailMap
  loading : Bool
  error : Option String
  deriving DecidableEq, Repr

/-- Atomic state commits of the fetch logic: service selection
(`onChange` of the select), dispatch of the effect body, and the two
resolution paths of one in-flight request. -/
inductive WidgetEvent where
  | selectService (sid : String)
  | fetchStart
  | fetchSuccess (times : List (String × List RawSlot))
  | fetchFailure (msg : String)
  deriving DecidableEq, Repr

/-- Effect of one event on the component state, read off the source
setter calls. -/
def applyWidgetEvent (st : WidgetFetchState) : WidgetEvent → WidgetFetchState
  | .selectService sid => { st with selectedServiceId := sid }
  | .fetchStart => { st with loading := true, error := none }
  | .fetchSuccess times =>
    { st with availableSlots := normalizeTimes times, loading := false }
  | .fetchFailure msg => { st with error := some msg, loading := false }

/-- Run of an event trace. -/
def runWidgetEvents (st : WidgetFetchState) (evs : List WidgetEvent) :
    WidgetFetchState :=
  evs.foldl applyWidgetEvent st

/-- Availability map after a trace as a recurrence on successful
resolutions only: the last `fetchSuccess` in the trace wins, whatever
the dispatch order was. -/
def lastFetchResult (init : AvailMap) (evs : List WidgetEvent) : AvailMap :=
  evs.foldl
    (fun acc e =>
      match e with
      | .fetchSuccess times => normalizeTimes times
      | _ => acc)
    init

/-- Recognizer for successful-resolution events. -/
def isFetchSuccess : WidgetEvent → Bool
  | .fetchSuccess _ => true
  | _ => false

/-! ## Configuration and customer data (component props and form state) -/

/-- One entry of the `formFields` configuration object; `visible`
embeds the source's `show` flag (`show` is a Lean keyword). -/
structure FieldConfig where
  visible : Bool
  required : Bool
  label : String
  deriving DecidableEq, Repr

/-- The nine-field `formFields` configuration. -/
structure FormFields where
  firstName : FieldConfig
  lastName : FieldConfig
  email : FieldConfig
  phone : FieldConfig
  address : FieldConfig
  city : FieldConfig
  zipCode : FieldConfig
  company : FieldConfig
  comments : FieldConfig
  deriving DecidableEq, Repr

/-- One entry of the `checkboxes` configuration object; `visible`
embeds the source's `show` flag. -/
structure CheckboxConfig where
  visible : Bool
  required : Bool
  label : String
  deriving DecidableEq, Repr

/-- The `checkboxes` configuration. -/
structure Checkboxes where
  terms : CheckboxConfig
  privacy : CheckboxConfig
  newsletter : CheckboxConfig
  deriving DecidableEq, Repr

/-- The `customerInfo` state object: nine string fields plus the three
acceptance flags. -/
structure CustomerInfo where
  firstName : String
  lastName : String
  email : String
  phone : String
  address : String
  city : String
  zipCode : String
  company : String
  comments : String
  termsAccepted : Bool
  privacyAccepted : Bool
  newsletterAccepted : Bool
  deriving DecidableEq, Repr

/-- Initial and post-success `customerInfo` value. -/
def emptyCustomerInfo : CustomerInfo :=
  ⟨"", "", "", "", "", "", "", "", "", false, false, false⟩

/-- String field lookup `customerInfo[fieldName]` for the nine form
field names. -/
def customerField (ci : CustomerInfo) : String → String
  | "firstName" => ci.firstName
  | "lastName" => ci.lastName
  | "email" => ci.email
  | "phone" => ci.phone
  | "address" => ci.address
  | "city" => ci.city
  | "zipCode" => ci.zipCode
  | "company" => ci.company
  | "comments" => ci.comments
  | _ => ""

/-- The `Object.entries(formFields)` iteration, in the declaration
order of the configuration object. -/
def formFieldsList (ff : FormFields) : List (String × FieldConfig) :=
  [("firstName", ff.firstName), ("lastName", ff.lastName),
   ("email", ff.email), ("phone", ff.phone), ("address", ff.address),
   ("city", ff.city), ("zipCode", ff.zipCode), ("company", ff.company),
   ("comments", ff.comments)]

/-- Service configuration entry (prices are modelled as naturals, the
configuration panel constrains them to be non-negative). -/
structure Service where
  id : String
  enabled : Bool
  name : String
  description : String
  basePrice : Nat
  apaPrice : Nat
  duration : String
  deriving DecidableEq, Repr

/-- The `apiConfig` prop. -/
structure ApiConfig where
  organizationId : String
  apiKey : String
  baseUrl : String
  resourceId : String
  deriving DecidableEq, Repr

/-- The slice of the `features` prop the submission and calendar logic
read. -/
structure FeaturesCfg where
  showPrices : Bool
  showDescriptions : Bool
  showDuration : Bool
  calendarView : String
  deriving DecidableEq, Repr

/-- The `urls` prop. -/
structure UrlsCfg where
  successUrl : String
  cancelUrl : String
  termsUrl : String
  privacyUrl : String
  deriving DecidableEq, Repr

/-! ## Form validation (`handleBookingSubmit`, validation prefix) -/

/-- First enabled+required field whose value is blank after trimming,
reported as the alert text `` `${field.label} is required` ``; mirrors
the `for … of requiredFields` loop (the `typeof value === "string"`
guard always holds for the nine form fields). -/
def firstFailingField (ci : CustomerInfo) :
    List (String × FieldConfig) → Option String
  | [] => none
  | (n, f) :: rest =>
    if f.visible = true ∧ f.required = true ∧ jsTrim (customerField ci n) = "" then
      some (f.label ++ " is required")
    else firstFailingField ci rest

/-- Validation performed at the top of `handleBookingSubmit`, in source
order: terms checkbox, privacy checkbox, then the required text fields.
Returns the alert message of the first failure.  The newsletter
checkbox is never examined. -/
def validateBookingForm (cb : Checkboxes) (ff : FormFields)
    (ci : CustomerInfo) : Option String :=
  if cb.terms.visible = true ∧ cb.terms.required = true ∧ ci.termsAccepted = false then
    some "You must accept the terms and conditions"
  else if cb.privacy.visible = true ∧ cb.privacy.required = true ∧
      ci.privacyAccepted = false then
    some "You must accept the privacy policy"
  else firstFailingField ci (formFieldsList ff)

/-! ## Booking payloads and the submission cascade
(`handleBookingSubmit`, network part)

The two `fetch` calls are modelled by oracles: `Except.error msg` is a
rejected promise (network error, message of the thrown exception) and
`Except.ok` a settled HTTP response.  The impure `created_at` timestamp
and the constant header/url strings do not influence the verified
behavior and are not carried in the payload model. -/

/-- The `client` block shared by both payloads: mandatory fields
trimmed, email also lower-cased, optional fields spread in only when
the field is configured-visible and the raw value is truthy
(non-empty). -/
structure ClientBlock where
  email : String
  firstName : String
  lastName : String
  phone : String
  address : Option String
  city : Option String
  zipCode : Option String
  company : Option String
  deriving DecidableEq, Repr

/-- Build the `client` block from the form configuration and the
entered customer info, as both payload literals do. -/
def buildClientBlock (ff : FormFields) (ci : CustomerInfo) : ClientBlock where
  email := jsToLower (jsTrim ci.email)
  firstName := jsTrim ci.firstName
  lastName := jsTrim ci.lastName
  phone := jsTrim ci.phone
  address := if ff.address.visible = true ∧ ci.address ≠ "" then some (jsTrim ci.address) else none
  city := if ff.city.visible = true ∧ ci.city ≠ "" then some (jsTrim ci.city) else none
  zipCode := if ff.zipCode.visible = true ∧ ci.zipCode ≠ "" then some (jsTrim ci.zipCode) else none
  company := if ff.company.visible = true ∧ ci.company ≠ "" then some (jsTrim ci.company) else none

/-- Metadata block common to both payloads (the primary payload
additionally carries the four redirect urls; the source constants
`source`, `booking_policy` and `payment_method` are fixed strings). -/
structure MetaBlock where
  total_amount : String
  service_name : String
  service_description : Option String
  service_duration : Option String
  comments : Option String
  newsletter_opt_in : Bool
  privacy_accepted : Bool
  deriving DecidableEq, Repr

/-- Metadata as both payload literals compute it. -/
def buildMetaBlock (features : FeaturesCfg) (cb : Checkboxes)
    (ff : FormFields) (service : Service) (ci : CustomerInfo) : MetaBlock where
  total_amount :=
    if features.showPrices = true then toString (service.basePrice + service.apaPrice) else "0"
  service_name := service.name
  service_description :=
    if features.showDescriptions = true then some service.description else none
  service_duration :=
    if features.showDuration = true then some service.duration else none
  comments :=
    if ff.comments.visible = true ∧ ci.comments ≠ "" then some (jsTrim ci.comments) else none
  newsletter_opt_in :=
    if cb.newsletter.visible = true then ci.newsletterAccepted else false
  privacy_accepted :=
    if cb.privacy.visible = true then ci.privacyAccepted else true

/-- Primary ("client" endpoint) request body. -/
structure ClientPayload where
  client : ClientBlock
  companyID : String
  serviceID : String
  resourceID : String
  startTime : String
  spots : Nat
  customPurchaseDescription : String
  metaData : MetaBlock
  success_url : String
  cancel_url : String
  terms_url : String
  privacy_url : String
  deriving DecidableEq, Repr

/-- Fallback ("merchant" endpoint) request body. -/
structure MerchantPayload where
  companyID : String
  serviceID : String
  resourceID : String
  startTime : String
  endTime : Option String
  spots : Nat
  client : ClientBlock
  status : String
  requirePayment : Bool
  termsAccepted : Bool
  metadata : MetaBlock
  deriving DecidableEq, Repr

/-- Bundle of the props `handleBookingSubmit` reads. -/
structure SubmitConfig where
  apiConfig : ApiConfig
  formFields : FormFields
  checkboxes : Checkboxes
  features : FeaturesCfg
  urls : UrlsCfg
  title : String
  activeServices : List Service
  selectedServiceId : String
  deriving Repr

/-- The `clientPayload` literal. -/
def buildClientPayload (cfg : SubmitConfig) (service : Service)
    (slot : TimeSlot) (ci : CustomerInfo) : ClientPayload where
  client := buildClientBlock cfg.formFields ci
  companyID := cfg.apiConfig.organizationId
  serviceID := cfg.selectedServiceId
  resourceID := if slot.resourceId = "" then cfg.apiConfig.resourceId else slot.resourceId
  startTime := slot.startTime
  spots := 1
  customPurchaseDescription := "Booking " ++ service.name ++ " - " ++ cfg.title
  metaData := buildMetaBlock cfg.features cfg.checkboxes cfg.formFields service ci
  success_url := cfg.urls.successUrl
  cancel_url := cfg.urls.cancelUrl
  terms_url := cfg.urls.termsUrl
  privacy_url := cfg.urls.privacyUrl

/-- The `merchantPayload` literal. -/
def buildMerchantPayload (cfg : SubmitConfig) (service : Service)
    (slot : TimeSlot) (ci : CustomerInfo) : MerchantPayload where
  companyID := cfg.apiConfig.organizationId
  serviceID := cfg.selectedServiceId
  resourceID := if slot.resourceId = "" then cfg.apiConfig.resourceId else slot.resourceId
  startTime := slot.startTime
  endTime := slot.endTime
  spots := 1
  client := buildClientBlock cfg.formFields ci
  status := "pending"
  requirePayment := true
  termsAccepted := ci.termsAccepted
  metadata := buildMetaBlock cfg.features cfg.checkboxes cfg.formFields service ci

/-- The `booking` sub-object of a booking response body. -/
structure BookingObj where
  id : Option String
  status : Option String
  deriving DecidableEq, Repr

/-- The `data` sub-object of a booking response body. -/
structure DataObj where
  paymentURL : Option String
  deriving DecidableEq, Repr

/-- JSON body of a booking response, with every field the defensive
extraction probes. -/
structure BookingJson where
  id : Option String
  bookingId : Option String
  booking : Option BookingObj
  status : Option String
  paymentURL : Option String
  data : Option DataObj
  deriving DecidableEq, Repr

/-- Settled HTTP response: `ok`/`status` of the response object, the
`text()` body and the `json()` body. -/
structure HttpResponse where
  ok : Bool
  status : Nat
  bodyText : String
  json : BookingJson
  deriving DecidableEq, Repr

/-- JS `a || b` on possibly-absent strings: `undefined` and `""` are
falsy, and the right operand is returned as-is when the left is
falsy. -/
def jsOrStr (a b : Option String) : Option String :=
  match a with
  | some s => if s = "" then b else some s
  | none => b

/-- Source `bookingData.id || bookingData.bookingId ||
bookingData.booking?.id`. -/
def extractBookingId (j : BookingJson) : Option String :=
  jsOrStr j.id (jsOrStr j.bookingId (j.booking.bind BookingObj.id))

/-- Source `bookingData.status || bookingData.booking?.status ||
"pending"`. -/
def extractStatus (j : BookingJson) : String :=
  (jsOrStr j.status (jsOrStr (j.booking.bind BookingObj.status) (some "pending"))).getD
    "pending"

/-- Source `bookingData.paymentURL || bookingData.data?.paymentURL`. -/
def extractPaymentUrl (j : BookingJson) : Option String :=
  jsOrStr j.paymentURL (j.data.bind DataObj.paymentURL)

/-- The `bookingSuccess` object stored on success. -/
structure BookingResult where
  bookingId : Option String
  status : String
  paymentUrl : Option String
  manualPayment : Bool
  apiUsed : String
  deriving DecidableEq, Repr

/-- Booking-flow React state `handleBookingSubmit` touches (the
transient `isBooking` flag is set and unconditionally reset in
`finally`, so it is not carried). -/
structure SubmitState where
  selectedDate : Option String
  selectedTimeSlot : Option TimeSlot
  customerInfo : CustomerInfo
  showTimeSelection : Bool
  showBookingForm : Bool
  bookingSuccess : Option BookingResult
  deriving DecidableEq, Repr

/-- Network oracle for one submission: result of the primary and (if
consulted) fallback `fetch`. -/
structure SubmitEnv where
  primary : Except String HttpResponse
  fallback : Except String HttpResponse
  deriving Repr

/-- A POST the submission issued, with its payload. -/
inductive ApiCall where
  | clientApi (p : ClientPayload)
  | merchantApi (p : MerchantPayload)
  deriving DecidableEq, Repr

/-- Recognizer for primary-endpoint calls. -/
def isClientCall : ApiCall → Bool
  | .clientApi _ => true
  | .merchantApi _ => false

/-- Outcome of `handleBookingSubmit`: the post-run state, the network
calls issued in order, and the alert surfaced (validation message or
caught error), if any. -/
structure SubmitOutcome where
  state : SubmitState
  calls : List ApiCall
  alert : Option String
  deriving Repr

/-- State reset performed on the success path. -/
def successState (st : SubmitState) (result : BookingResult) : SubmitState :=
  { st with
      showBookingForm := false
      showTimeSelection := false
      selectedDate := none
      selectedTimeSlot := none
      customerInfo := emptyCustomerInfo
      bookingSuccess := some result }

/-- Shared success tail of the cascade: extract the booking fields
defensively and reset the draft. -/
def finishBooking (st : SubmitState) (apiUsed : String) (resp : HttpResponse)
    (calls : List ApiCall) : SubmitOutcome :=
  let paymentUrl := extractPaymentUrl resp.json
  ⟨successState st
      ⟨extractBookingId resp.json, extractStatus resp.json, paymentUrl,
        paymentUrl.isNone, apiUsed⟩,
    calls, none⟩

/-- Full model of `handleBookingSubmit`: validation, then the primary
attempt, then — only when the primary settled with a non-success
status — the fallback attempt; thrown errors (network failures,
missing service, final non-success status) land in the `catch` and
surface as an `Error: …` alert with the state untouched. -/
def handleBookingSubmit (cfg : SubmitConfig) (st : SubmitState)
    (env : SubmitEnv) : SubmitOutcome :=
  match validateBookingForm cfg.checkboxes cfg.formFields st.customerInfo with
  | some msg => ⟨st, [], some msg⟩
  | none =>
    match st.selectedTimeSlot with
    | none => ⟨st, [], some "No time slot selected"⟩
    | some slot =>
      match cfg.activeServices.find? (fun s => s.id = cfg.selectedServiceId) with
      | none => ⟨st, [], some "Error: Service not found"⟩
      | some service =>
        let clientPayload := buildClientPayload cfg service slot st.customerInfo
        match env.primary with
        | .error msg => ⟨st, [.clientApi clientPayload], some ("Error: " ++ msg)⟩
        | .ok resp1 =>
          if resp1.ok then
            finishBooking st "Client API" resp1 [.clientApi clientPayload]
          else
            let merchantPayload := buildMerchantPayload cfg service slot st.customerInfo
            match env.fallback with
            | .error msg =>
              ⟨st, [.clientApi clientPayload, .merchantApi merchantPayload],
                some ("Error: " ++ msg)⟩
            | .ok resp2 =>
              if resp2.ok then
                finishBooking st "Merchant API (fallback)" resp2
                  [.clientApi clientPayload, .merchantApi merchantPayload]
              else
                ⟨st, [.clientApi clientPayload, .merchantApi merchantPayload],
                  some ("Error: Booking error: " ++ toString resp2.status ++ " - " ++
                    resp2.bodyText)⟩

/-! ## Calendar grid construction (source `generateCalendarDays`) -/

/-- One rendered day cell, reduced to the data and interaction flags
(the source builds a styled element; `clickable` is the guard of its
`onClick` handler, `civil` the `currentDate` the cell was built from,
`dateString` the key passed to `handleDateSelection`). -/
structure CalendarCell where
  civil : Option JDate
  dateString : Option String
  isAvailable : Bool
  isCurrentDay : Bool
  isPastDate : Bool
  clickable : Bool
  deriving DecidableEq, Repr

/-- Padding cell emitted before the first day of the month. -/
def paddingCell : CalendarCell :=
  ⟨none, none, false, false, false, false⟩

/-- Day cell shared by both views: availability, today and past flags
and the click guard, computed exactly as in the source. -/
def dayCell (avail : AvailMap) (today : JDate) (currentDate : JDate) :
    CalendarCell :=
  let dateString := formatDateString currentDate
  let daySlots := (lookupSlots avail dateString).getD []
  let isDateAvailable : Bool := decide (0 < daySlots.length)
  let isPastDate := isDateInPastB currentDate today
  ⟨some currentDate, some dateString, isDateAvailable,
    isTodayB currentDate today, isPastDate, isDateAvailable && !isPastDate⟩

/-- Source `generateCalendarDays`: week view emits 7 cells from the
week start; month view emits `(weekday of the 1st + 6) % 7` padding
cells (Monday-first weeks), then one cell per day of the month. -/
def generateCalendarDays (calendarView : String) (currentWeekStart : JDate)
    (currentYear currentMonth : Int) (avail : AvailMap) (today : JDate) :
    List CalendarCell :=
  if calendarView = "week" then
    (List.range 7).map (fun i => dayCell avail today (addDaysJ currentWeekStart i))
  else
    let firstDayOfMonth := mkDate currentYear currentMonth 1
    let lastDayOfMonth := mkDate currentYear (currentMonth + 1) 0
    let totalDaysInMonth := lastDayOfMonth.day
    let startingWeekday := Int.fmod (jsGetDay firstDayOfMonth + 6) 7
    (List.range startingWeekday.toNat).map (fun _ => paddingCell) ++
      (List.range totalDaysInMonth.toNat).map
        (fun k => dayCell avail today (mkDate currentYear currentMonth (Int.ofNat k + 1)))

/-! ## Specification-side predicates -/

/-- A date's slot list is non-empty and every slot in it starts on
that date (textual date part of `startTime`). -/
def SlotsGroupedUnder (d : String) (l : List TimeSlot) : Prop :=
  l ≠ [] ∧ ∀ s ∈ l, splitDatePart s.startTime = d

/-- A slot list is ascending by start time (the normalization's sort
key). -/
def SlotsSortedByStart (l : List TimeSlot) : Prop :=
  l.Pairwise (fun a b => jsTimeKey a.startTime ≤ jsTimeKey b.startTime)

/-- Well-formedness of a grouped availability map: every entry's list
is grouped under its key. -/
def GoodMap (m : AvailMap) : Prop :=
  ∀ p ∈ m, SlotsGroupedUnder p.1 p.2

/-- A real (non-padding) cell is available iff its date has a
non-empty slot list in the map, past iff its calendar date is strictly
before today's, and clickable iff available and not past. -/
def CellConsistent (avail : AvailMap) (today : JDate) (c : CalendarCell) : Prop :=
  ∀ dt, c.civil = some dt →
    (c.isAvailable = true ↔ (lookupSlots avail (formatDateString dt)).getD [] ≠ []) ∧
    (c.isPastDate = true ↔ dayNumber dt < dayNumber today) ∧
    (c.clickable = true ↔ (c.isAvailable = true ∧ c.isPastDate = false))

/-- An enabled and required checkbox that the user has not accepted. -/
def CheckboxFailing (c : CheckboxConfig) (accepted : Bool) : Prop :=
  c.visible = true ∧ c.required = true ∧ accepted = false

/-- Some enabled and required form field is blank after trimming. -/
def FieldFailing (ff : FormFields) (ci : CustomerInfo) : Prop :=
  ∃ p ∈ formFieldsList ff, p.2.visible = true ∧ p.2.required = true ∧
    jsTrim (customerField ci p.1) = ""

/-! ## Concrete instances used by witnesses and counterexamples -/

/-- Provider response of the slot-ordering example: one date, start
times 10:00, 08:00, 14:00 in response order. -/
def exTimes : List (String × List RawSlot) :=
  [("boat-1",
    [⟨"2025-06-15T10:00:00Z", some "2025-06-15T12:00:00Z"⟩,
     ⟨"2025-06-15T08:00:00Z", none⟩,
     ⟨"2025-06-15T14:00:00Z", none⟩])]

/-- Normalized slots of `exTimes`, in stored order. -/
def exSlot08 : TimeSlot := ⟨"2025-06-15T08:00:00Z", none, "boat-1"⟩

/-- Second slot of the ordering example. -/
def exSlot10 : TimeSlot :=
  ⟨"2025-06-15T10:00:00Z", some "2025-06-15T12:00:00Z", "boat-1"⟩

/-- Third slot of the ordering example. -/
def exSlot14 : TimeSlot := ⟨"2025-06-15T14:00:00Z", none, "boat-1"⟩

/-- Provider response exercising the invariant: two resources, a slot
with a falsy `startTime` (skipped), interleaved dates. -/
def exTimes2 : List (String × List RawSlot) :=
  [("boat-1", [⟨"2025-07-02T09:00:00Z", none⟩, ⟨"", none⟩]),
   ("boat-2", [⟨"2025-07-01T11:00:00Z", none⟩, ⟨"2025-07-02T07:30:00Z", none⟩])]

/-- Response of the superseded fetch A (service X). -/
def respTimesA : List (String × List RawSlot) :=
  [("boat-1", [⟨"2025-06-01T10:00:00Z", none⟩])]

/-- Response of the fresher fetch B (service Y). -/
def respTimesB : List (String × List RawSlot) :=
  [("boat-1", [⟨"2025-06-02T09:00:00Z", none⟩])]

/-- Initial widget state of the supersession scenario: service X
selected, empty map. -/
def initFetchState : WidgetFetchState := ⟨"X", [], false, none⟩

/-- Widget state holding service X's availability, as after a
successful fetch for X. -/
def statePriorX : WidgetFetchState :=
  ⟨"X", normalizeTimes respTimesA, false, none⟩

/-- Trace of the stale-fetch scenario: A dispatched, service switched,
B dispatched, B resolves, then A resolves late. -/
def staleTrace : List WidgetEvent :=
  [.fetchStart, .selectService "Y", .fetchStart,
   .fetchSuccess respTimesB, .fetchSuccess respTimesA]

/-- Field configuration used by the concrete submissions: the four
default-visible required fields, optional fields hidden. -/
def ffW : FormFields :=
  ⟨⟨true, true, "Prenom"⟩, ⟨true, true, "Nom"⟩, ⟨true, true, "Email"⟩,
   ⟨true, true, "Telephone"⟩, ⟨false, false, "Adresse"⟩,
   ⟨false, false, "Ville"⟩, ⟨false, false, "Code postal"⟩,
   ⟨false, false, "Entreprise"⟩, ⟨false, false, "Commentaires"⟩⟩

/-- Checkbox configuration used by the concrete submissions. -/
def cbW : Checkboxes :=
  ⟨⟨true, true, "Conditions"⟩, ⟨false, false, "Confidentialite"⟩,
   ⟨false, false, "Newsletter"⟩⟩

/-- Service list of the concrete submissions. -/
def serviceW : Service := ⟨"svc-1", true, "Service Journee", "Journee", 300, 100, "8 heures"⟩

/-- Submission configuration of the concrete scenarios. -/
def cfgW : SubmitConfig :=
  ⟨⟨"org-1", "key", "https://us.bookla.com", "res-default"⟩, ffW, cbW,
    ⟨true, true, true, "month"⟩,
    ⟨"https://x/ok", "https://x/err", "https://x/terms", "https://x/privacy"⟩,
    "Reservation de Bateau", [serviceW], "svc-1"⟩

/-- Customer info with every required field filled and terms
accepted. -/
def ciFilled : CustomerInfo :=
  ⟨"Ana", "Reyes", " Ana@Mail.com ", "0600000000", "", "", "", "", "",
    true, false, false⟩

/-- Time slot being booked in the concrete scenarios. -/
def slotW : TimeSlot :=
  ⟨"2025-06-15T08:00:00Z", some "2025-06-15T12:00:00Z", "boat-1"⟩

/-- Booking-flow state at submission time, with the form open. -/
def stW : SubmitState :=
  ⟨some "2025-06-15", some slotW, ciFilled, false, true, none⟩

/-- Response body used by the concrete success responses. -/
def jsonOkW : BookingJson :=
  ⟨some "bk-1", none, none, some "confirmed", none, none⟩

/-- Concrete successful HTTP response. -/
def respOkW : HttpResponse := ⟨true, 200, "", jsonOkW⟩

/-- Concrete rejected HTTP response. -/
def respFail422 : HttpResponse := ⟨false, 422, "invalid payload", ⟨none, none, none, none, none, none⟩⟩

/-- Concrete rejected HTTP response for the fallback endpoint. -/
def respFail500 : HttpResponse := ⟨false, 500, "server down", ⟨none, none, none, none, none, none⟩⟩

/-- Oracle: primary rejects with a network error. -/
def envNetErr : SubmitEnv := ⟨.error "Failed to fetch", .ok respOkW⟩

/-- Oracle: primary settles non-success, fallback succeeds. -/
def envFallbackOk : SubmitEnv := ⟨.ok respFail422, .ok respOkW⟩

/-- Oracle: both endpoints settle non-success. -/
def envBothFail : SubmitEnv := ⟨.ok respFail422, .ok respFail500⟩

/-- Oracle: primary succeeds. -/
def envPrimaryOk : SubmitEnv := ⟨.ok respOkW, .ok respOkW⟩

/-- Checkbox configuration with the newsletter checkbox enabled and
required. -/
def cbNews : Checkboxes :=
  ⟨⟨true, false, "Conditions"⟩, ⟨false, false, "Confidentialite"⟩,
   ⟨true, true, "Newsletter"⟩⟩

/-- Submission configuration with a required newsletter checkbox. -/
def cfgNews : SubmitConfig := { cfgW with checkboxes := cbNews }

/-- State whose customer left the required email blank. -/
def stBlankEmail : SubmitState :=
  { stW with customerInfo := { ciFilled with email := "   " } }

/-- Form fields with the address field visible. -/
def ffAddr : FormFields := { ffW with address := ⟨true, false, "Adresse"⟩ }

/-- Customer info whose address is whitespace only (truthy in JS,
blank after trimming). -/
def ciSpaceAddr : CustomerInfo := { ciFilled with address := " " }

/-- Availability map of the calendar witness: one available date. -/
def availW : AvailMap := [("2025-06-20", [⟨"2025-06-20T09:00:00Z", none, "boat-1"⟩])]

/-- Today of the calendar witness (June 16, 2025). -/
def todayW : JDate := ⟨2025, 5, 16⟩

/-- Week start of the calendar witness (Monday June 16, 2025). -/
def weekStartW : JDate := ⟨2025, 5, 16⟩

/-! ## Helper lemmas about the normalization -/

theorem mem_insertSlotSorted {x y : TimeSlot} {l : List TimeSlot} :
    y ∈ insertSlotSorted x l ↔ y = x ∨ y ∈ l := by
  induction l with
  | nil => simp [insertSlotSorted]
  | cons z zs ih =>
    by_cases h : jsTimeKey z.startTime ≤ jsTimeKey x.startTime
    · simp only [insertSlotSorted, if_pos h, List.mem_cons, ih]
      tauto
    · simp only [insertSlotSorted, if_neg h, List.mem_cons]

theorem length_insertSlotSorted (x : TimeSlot) (l : List TimeSlot) :
    (insertSlotSorted x l).length = l.length + 1 := by
  induction l with
  | nil => rfl
  | cons z zs ih =>
    by_cases h : jsTimeKey z.startTime ≤ jsTimeKey x.startTime
    · simp [insertSlotSorted, if_pos h, ih]
    · simp [insertSlotSorted, if_neg h]

theorem sorted_insertSlotSorted {x : TimeSlot} {l : List TimeSlot}
    (h : SlotsSortedByStart l) : SlotsSortedByStart (insertSlotSorted x l) := by
  induction l with
  | nil => simp [insertSlotSorted, SlotsSortedByStart]
  | cons z zs ih =>
    rw [SlotsSortedByStart, List.pairwise_cons] at h
    by_cases hc : jsTimeKey z.startTime ≤ jsTimeKey x.startTime
    · rw [SlotsSortedByStart, insertSlotSorted, if_pos hc, List.pairwise_cons]
      refine ⟨?_, ih h.2⟩
      intro b hb
      rcases mem_insertSlotSorted.1 hb with rfl | hb2
      · exact hc
      · exact h.1 b hb2
    · rw [SlotsSortedByStart, insertSlotSorted, if_neg hc, List.pairwise_cons]
      push_neg at hc
      refine ⟨?_, ?_⟩
      · intro b hb
        rcases List.mem_cons.1 hb with rfl | hb2
        · exact le_of_lt hc
        · exact le_trans (le_of_lt hc) (h.1 b hb2)
      · rw [List.pairwise_cons]
        exact h

theorem sortSlotsAux_mem {y : TimeSlot} :
    ∀ (l acc : List TimeSlot),
      y ∈ l.foldl (fun a x => insertSlotSorted x a) acc → y ∈ acc ∨ y ∈ l := by
  intro l
  induction l with
  | nil => intro acc h; exact Or.inl h
  | cons z zs ih =>
    intro acc h
    rcases ih (insertSlotSorted z acc) h with h2 | h2
    · rcases mem_insertSlotSorted.1 h2 with rfl | h3
      · exact Or.inr (List.mem_cons_self _ _)
      · exact Or.inl h3
    · exact Or.inr (List.mem_cons_of_mem _ h2)

theorem sortSlotsAux_sorted :
    ∀ (l acc : List TimeSlot), SlotsSortedByStart acc →
      SlotsSortedByStart (l.foldl (fun a x => insertSlotSorted x a) acc) := by
  intro l
  induction l with
  | nil => intro acc h; exact h
  | cons z zs ih => intro acc h; exact ih _ (sorted_insertSlotSorted h)

theorem sortSlotsAux_length :
    ∀ (l acc : List TimeSlot),
      (l.foldl (fun a x => insertSlotSorted x a) acc).length =
        acc.length + l.length := by
  intro l
  induction l with
  | nil => intro acc; rfl
  | cons z zs ih =>
    intro acc
    rw [List.foldl_cons, ih, length_insertSlotSorted]
    simp only [List.length_cons]
    omega

theorem mem_sortSlots {y : TimeSlot} {l : List TimeSlot}
    (h : y ∈ sortSlots l) : y ∈ l := by
  rcases sortSlotsAux_mem l [] h with h2 | h2
  · simp at h2
  · exact h2

theorem sorted_sortSlots (l : List TimeSlot) : SlotsSortedByStart (sortSlots l) :=
  sortSlotsAux_sorted l [] (by simp [SlotsSortedByStart])

theorem length_sortSlots (l : List TimeSlot) : (sortSlots l).length = l.length := by
  rw [sortSlots, sortSlotsAux_length]
  simp

theorem goodMap_addSlotTo {m : AvailMap} {d : String} {s : TimeSlot}
    (h : GoodMap m) (hs : splitDatePart s.startTime = d) :
    GoodMap (addSlotTo m d s) := by
  induction m with
  | nil =>
    intro p hp
    simp only [addSlotTo, List.mem_singleton] at hp
    subst hp
    exact ⟨by simp, by simpa using hs⟩
  | cons q rest ih =>
    obtain ⟨k, l⟩ := q
    by_cases hk : k = d
    · intro p hp
      rw [addSlotTo] at hp
      simp only [if_pos hk] at hp
      rcases List.mem_cons.1 hp with rfl | hp2
      · have hq := h (k, l) (List.mem_cons_self _ _)
        refine ⟨by simp, ?_⟩
        intro t ht
        rcases List.mem_append.1 ht with ht2 | ht2
        · exact hq.2 t ht2
        · rw [List.mem_singleton.1 ht2, hs, hk]
      · exact h p (List.mem_cons_of_mem _ hp2)
    · intro p hp
      rw [addSlotTo] at hp
      simp only [if_neg hk] at hp
      rcases List.mem_cons.1 hp with rfl | hp2
      · exact h _ (List.mem_cons_self _ _)
      · exact ih (fun q hq => h q (List.mem_cons_of_mem _ hq)) p hp2

theorem goodMap_groupInner (rid : String) :
    ∀ (slots : List RawSlot) (m : AvailMap), GoodMap m →
      GoodMap (slots.foldl
        (fun m r =>
          if r.startTime = "" then m
          else addSlotTo m (splitDatePart r.startTime) ⟨r.startTime, r.endTime, rid⟩)
        m) := by
  intro slots
  induction slots with
  | nil => intro m h; exact h
  | cons r rest ih =>
    intro m h
    rw [List.foldl_cons]
    by_cases hr : r.startTime = ""
    · rw [if_pos hr]; exact ih m h
    · rw [if_neg hr]
      exact ih _ (goodMap_addSlotTo h rfl)

theorem goodMap_groupSlots (times : List (String × List RawSlot)) :
    GoodMap (groupSlots times) := by
  rw [groupSlots]
  have aux : ∀ (ts : List (String × List RawSlot)) (m : AvailMap), GoodMap m →
      GoodMap (ts.foldl
        (fun m p =>
          p.2.foldl
            (fun m r =>
              if r.startTime = "" then m
              else addSlotTo m (splitDatePart r.startTime) ⟨r.startTime, r.endTime, p.1⟩)
            m)
        m) := by
    intro ts
    induction ts with
    | nil => intro m h; exact h
    | cons p rest ih =>
      intro m h
      rw [List.foldl_cons]
      exact ih _ (goodMap_groupInner p.1 p.2 m h)
  exact aux times [] (by intro p hp; simp at hp)

theorem normalizeTimes_entry {times : List (String × List RawSlot)}
    {d : String} {l : List TimeSlot} (h : (d, l) ∈ normalizeTimes times) :
    ∃ l0, (d, l0) ∈ groupSlots times ∧ l = sortSlots l0 := by
  rw [normalizeTimes] at h
  rcases List.mem_map.1 h with ⟨p, hp, heq⟩
  refine ⟨p.2, ?_, ?_⟩
  · have h1 : p.1 = d := congrArg Prod.fst heq
    rw [← h1]
    exact hp
  · exact (congrArg Prod.snd heq).symm

theorem normalizeTimes_grouped {times : List (String × List RawSlot)}
    {d : String} {l : List TimeSlot} (h : (d, l) ∈ normalizeTimes times) :
    SlotsGroupedUnder d l := by
  rcases normalizeTimes_entry h with ⟨l0, hl0, rfl⟩
  have hg := goodMap_groupSlots times (d, l0) hl0
  constructor
  · intro hemp
    have : l0.length = 0 := by
      have := length_sortSlots l0
      rw [hemp] at this
      simpa using this.symm
    exact hg.1 (List.length_eq_zero.1 this)
  · intro s hs
    exact hg.2 s (mem_sortSlots hs)

/-! ## Helper lemmas about validation -/

theorem firstFailingField_isSome {ci : CustomerInfo}
    {l : List (String × FieldConfig)}
    (h : ∃ p ∈ l, p.2.visible = true ∧ p.2.required = true ∧
      jsTrim (customerField ci p.1) = "") :
    (firstFailingField ci l).isSome = true := by
  induction l with
  | nil => simp at h
  | cons p rest ih =>
    obtain ⟨n, f⟩ := p
    rw [firstFailingField]
    by_cases hc : f.visible = true ∧ f.required = true ∧ jsTrim (customerField ci n) = ""
    · rw [if_pos hc]; rfl
    · rw [if_neg hc]
      apply ih
      rcases h with ⟨q, hq, hcond⟩
      rcases List.mem_cons.1 hq with rfl | hq2
      · exact absurd hcond hc
      · exact ⟨q, hq2, hcond⟩

theorem firstFailingField_shape {ci : CustomerInfo}
    {l : List (String × FieldConfig)} {m : String}
    (h : firstFailingField ci l = some m) :
    ∃ p ∈ l, p.2.visible = true ∧ p.2.required = true ∧
      jsTrim (customerField ci p.1) = "" ∧ m = p.2.label ++ " is required" := by
  induction l with
  | nil => simp [firstFailingField] at h
  | cons p rest ih =>
    obtain ⟨n, f⟩ := p
    rw [firstFailingField] at h
    by_cases hc : f.visible = true ∧ f.required = true ∧ jsTrim (customerField ci n) = ""
    · rw [if_pos hc] at h
      exact ⟨(n, f), List.mem_cons_self _ _, hc.1, hc.2.1, hc.2.2,
        (Option.some_injective _ h).symm⟩
    · rw [if_neg hc] at h
      rcases ih h with ⟨q, hq, hcond⟩
      exact ⟨q, List.mem_cons_of_mem _ hq, hcond⟩

theorem validateBookingForm_isSome {cb : Checkboxes} {ff : FormFields}
    {ci : CustomerInfo}
    (h : CheckboxFailing cb.terms ci.termsAccepted ∨
      CheckboxFailing cb.privacy ci.privacyAccepted ∨ FieldFailing ff ci) :
    (validateBookingForm cb ff ci).isSome = true := by
  rw [validateBookingForm]
  by_cases h1 : cb.terms.visible = true ∧ cb.terms.required = true ∧
      ci.termsAccepted = false
  · rw [if_pos h1]; rfl
  · rw [if_neg h1]
    by_cases h2 : cb.privacy.visible = true ∧ cb.privacy.required = true ∧
        ci.privacyAccepted = false
    · rw [if_pos h2]; rfl
    · rw [if_neg h2]
      apply firstFailingField_isSome
      rcases h with hf | hf | hf
      · exact absurd hf h1
      · exact absurd hf h2
      · exact hf

theorem validateBookingForm_shape {cb : Checkboxes} {ff : FormFields}
    {ci : CustomerInfo} {m : String}
    (h : validateBookingForm cb ff ci = some m) :
    m = "You must accept the terms and conditions" ∨
    m = "You must accept the privacy policy" ∨
    ∃ p ∈ formFieldsList ff, p.2.visible = true ∧ p.2.required = true ∧
      jsTrim (customerField ci p.1) = "" ∧ m = p.2.label ++ " is required" := by
  rw [validateBookingForm] at h
  by_cases h1 : cb.terms.visible = true ∧ cb.terms.required = true ∧
      ci.termsAccepted = false
  · rw [if_pos h1] at h
    exact Or.inl (Option.some_injective _ h).symm
  · rw [if_neg h1] at h
    by_cases h2 : cb.privacy.visible = true ∧ cb.privacy.required = true ∧
        ci.privacyAccepted = false
    · rw [if_pos h2] at h
      exact Or.inr (Or.inl (Option.some_injective _ h).symm)
    · rw [if_neg h2] at h
      exact Or.inr (Or.inr (firstFailingField_shape h))

/-! ## Helper lemmas about the calendar cells -/

theorem dayCell_consistent (avail : AvailMap) (today cd : JDate) :
    CellConsistent avail today (dayCell avail today cd) := by
  intro dt hdt
  have hcd : dt = cd := by
    simpa [dayCell] using hdt.symm
  subst hcd
  refine ⟨?_, ?_, ?_⟩
  · simp [dayCell, List.length_pos]
  · simp [dayCell, isDateInPastB]
  · simp only [dayCell, Bool.and_eq_true, Bool.not_eq_true']

theorem paddingCell_consistent (avail : AvailMap) (today : JDate) :
    CellConsistent avail today paddingCell := by
  intro dt hdt
  simp [paddingCell] at hdt

/-! ## Claim C1 — stale fetch supersession -/

/-- C1 (amended): after any trace of fetch dispatches and resolutions,
the AvailabilityMap equals the normalization carried by the trace's
last successful resolution (or the initial map when there is none):
last-write-wins is decided by completion arrival order, and a stale
fetch that resolves after a fresher one overwrites the fresher
result — there is no supersession by dispatch recency. -/
theorem c1_availability_last_completion_wins :
    ∀ (evs : List WidgetEvent) (st : WidgetFetchState),
      (runWidgetEvents st evs).availableSlots =
        lastFetchResult st.availableSlots evs := by
  intro evs
  induction evs with
  | nil => intro st; rfl
  | cons e rest ih =>
    intro st
    cases e with
    | selectService sid => exact ih _
    | fetchStart => exact ih _
    | fetchSuccess times => exact ih _
    | fetchFailure msg => exact ih _

/-- C1 (counterexample): fetch A is dispatched, fetch B (after a
service switch) is dispatched before A resolves, B resolves first and
A resolves last — the stored map is A's normalization and differs from
B's, so the AvailabilityMap does not reflect B's result. -/
theorem c1_counterexample :
    (runWidgetEvents initFetchState staleTrace).availableSlots =
      normalizeTimes respTimesA ∧
    normalizeTimes respTimesA ≠ normalizeTimes respTimesB := by
  exact ⟨rfl, by decide⟩

/-! ## Claim C2 — service switch and stale availability -/

/-- C2 (amended): selecting a different service while browsing (and
the dispatch of the new availability fetch) leaves the AvailabilityMap
untouched: through any event trace containing no successful fetch
resolution, the prior service's availability content persists — it is
only replaced, wholesale, when a fetch resolves successfully. -/
theorem c2_availability_persists_until_resolution :
    ∀ (evs : List WidgetEvent) (st : WidgetFetchState),
      (∀ e ∈ evs, isFetchSuccess e = false) →
      (runWidgetEvents st evs).availableSlots = st.availableSlots := by
  intro evs
  induction evs with
  | nil => intro st _; rfl
  | cons e rest ih =>
    intro st h
    have he := h e (List.mem_cons_self _ _)
    have hrest := fun x hx => h x (List.mem_cons_of_mem _ hx)
    cases e with
    | selectService sid => exact ih _ hrest
    | fetchStart => exact ih _ hrest
    | fetchSuccess times => simp [isFetchSuccess] at he
    | fetchFailure msg => exact ih _ hrest

theorem c2_availability_persists_until_resolution_witness :
    (∀ e ∈ [WidgetEvent.selectService "Y", WidgetEvent.fetchStart],
      isFetchSuccess e = false) ∧
    (runWidgetEvents statePriorX
      [WidgetEvent.selectService "Y", WidgetEvent.fetchStart]).availableSlots =
      statePriorX.availableSlots :=
  ⟨by decide,
    c2_availability_persists_until_resolution
      [WidgetEvent.selectService "Y", WidgetEvent.fetchStart] statePriorX
      (by decide)⟩

/-- C2 (counterexample): with service X's availability loaded,
selecting service Y and dispatching the new fetch leaves the prior
service's non-empty availability in place — nothing clears the map
before the new fetch resolves. -/
theorem c2_counterexample :
    statePriorX.selectedServiceId = "X" ∧
    (runWidgetEvents statePriorX
      [WidgetEvent.selectService "Y", WidgetEvent.fetchStart]).availableSlots =
      normalizeTimes respTimesA ∧
    normalizeTimes respTimesA ≠ [] := by
  exact ⟨rfl, rfl, by decide⟩

/-! ## Claim C7 — slot grouping and ordering -/

/-- C7: in a normalized availability map, every date's slot list is
sorted ascending by start time, and every slot in it is grouped under
the textual date part of its own `startTime`. -/
theorem c7_normalization_groups_and_sorts (times : List (String × List RawSlot))
    (d : String) (l : List TimeSlot) (h : (d, l) ∈ normalizeTimes times) :
    SlotsSortedByStart l ∧ ∀ s ∈ l, splitDatePart s.startTime = d := by
  refine ⟨?_, (normalizeTimes_grouped h).2⟩
  rcases normalizeTimes_entry h with ⟨l0, _, rfl⟩
  exact sorted_sortSlots l0

theorem c7_normalization_groups_and_sorts_witness :
    normalizeTimes exTimes = [("2025-06-15", [exSlot08, exSlot10, exSlot14])] ∧
    SlotsSortedByStart [exSlot08, exSlot10, exSlot14] :=
  ⟨by decide,
    (c7_normalization_groups_and_sorts exTimes "2025-06-15"
      [exSlot08, exSlot10, exSlot14] (by decide)).1⟩

/-! ## Claim C10 — availability map invariant -/

/-- C10: every date key of a map produced by a successful fetch's
normalization carries a non-empty slot list all of whose slots start
on that date; a date with no slots never acquires a key, so no empty
list is ever stored. -/
theorem c10_availability_map_invariant (times : List (String × List RawSlot))
    (d : String) (l : List TimeSlot) (h : (d, l) ∈ normalizeTimes times) :
    SlotsGroupedUnder d l :=
  normalizeTimes_grouped h

theorem c10_availability_map_invariant_witness :
    (("2025-07-02",
      [⟨"2025-07-02T07:30:00Z", none, "boat-2"⟩,
       ⟨"2025-07-02T09:00:00Z", none, "boat-1"⟩]) ∈ normalizeTimes exTimes2) ∧
    SlotsGroupedUnder "2025-07-02"
      [⟨"2025-07-02T07:30:00Z", none, "boat-2"⟩,
       ⟨"2025-07-02T09:00:00Z", none, "boat-1"⟩] :=
  ⟨by decide,
    c10_availability_map_invariant exTimes2 "2025-07-02"
      [⟨"2025-07-02T07:30:00Z", none, "boat-2"⟩,
       ⟨"2025-07-02T09:00:00Z", none, "boat-1"⟩] (by decide)⟩

/-! ## Claim C8 — calendar cell flags and selectability -/

/-- C8: in both month and week view, every generated cell with a real
date is available iff its date string has a non-empty slot list in the
availability map, past iff its calendar date is strictly before
today's, and clickable (date selection permitted) iff available and
not past — so an empty or absent slot list is never selectable and a
non-empty one is selectable iff the date is not past. -/
theorem c8_calendar_cells_consistent (view : String) (cws : JDate)
    (y m : Int) (avail : AvailMap) (today : JDate) (c : CalendarCell)
    (hc : c ∈ generateCalendarDays view cws y m avail today) :
    CellConsistent avail today c := by
  rw [generateCalendarDays] at hc
  by_cases hv : view = "week"
  · rw [if_pos hv] at hc
    rcases List.mem_map.1 hc with ⟨i, _, rfl⟩
    exact dayCell_consistent _ _ _
  · rw [if_neg hv] at hc
    rcases List.mem_append.1 hc with h2 | h2
    · rcases List.mem_map.1 h2 with ⟨i, _, rfl⟩
      exact paddingCell_consistent _ _
    · rcases List.mem_map.1 h2 with ⟨i, _, rfl⟩
      exact dayCell_consistent _ _ _

theorem c8_calendar_cells_consistent_witness :
    (dayCell availW todayW (addDaysJ weekStartW 4) ∈
      generateCalendarDays "week" weekStartW 2025 5 availW todayW) ∧
    CellConsistent availW todayW (dayCell availW todayW (addDaysJ weekStartW 4)) :=
  ⟨by decide,
    c8_calendar_cells_consistent "week" weekStartW 2025 5 availW todayW
      (dayCell availW todayW (addDaysJ weekStartW 4)) (by decide)⟩

/-! ## Claim C3 — validation gates submission -/

/-- C3 (amended): if the terms or privacy checkbox is enabled, required
and unaccepted, or some enabled and required form field is blank after
trimming, the submission is rejected with no network call, the state
(including the open form) unchanged, and an alert identifying the
failing checkbox or field; the newsletter checkbox, however, is never
validated. -/
theorem c3_validation_blocks_submission (cfg : SubmitConfig)
    (st : SubmitState) (env : SubmitEnv)
    (h : CheckboxFailing cfg.checkboxes.terms st.customerInfo.termsAccepted ∨
      CheckboxFailing cfg.checkboxes.privacy st.customerInfo.privacyAccepted ∨
      FieldFailing cfg.formFields st.customerInfo) :
    ∃ m, handleBookingSubmit cfg st env = ⟨st, [], some m⟩ ∧
      (m = "You must accept the terms and conditions" ∨
       m = "You must accept the privacy policy" ∨
       ∃ p ∈ formFieldsList cfg.formFields, p.2.visible = true ∧
         p.2.required = true ∧ jsTrim (customerField st.customerInfo p.1) = "" ∧
         m = p.2.label ++ " is required") := by
  obtain ⟨m, hm⟩ := Option.isSome_iff_exists.1 (validateBookingForm_isSome h)
  refine ⟨m, ?_, validateBookingForm_shape hm⟩
  rw [handleBookingSubmit, hm]

theorem c3_validation_blocks_submission_witness :
    FieldFailing cfgW.formFields stBlankEmail.customerInfo ∧
    (∃ m, handleBookingSubmit cfgW stBlankEmail envPrimaryOk =
        ⟨stBlankEmail, [], some m⟩ ∧
      (m = "You must accept the terms and conditions" ∨
       m = "You must accept the privacy policy" ∨
       ∃ p ∈ formFieldsList cfgW.formFields, p.2.visible = true ∧
         p.2.required = true ∧
         jsTrim (customerField stBlankEmail.customerInfo p.1) = "" ∧
         m = p.2.label ++ " is required")) :=
  ⟨by simp only [FieldFailing, formFieldsList]; decide,
    c3_validation_blocks_submission cfgW stBlankEmail envPrimaryOk
      (Or.inr (Or.inr (by simp only [FieldFailing, formFieldsList]; decide)))⟩

/-- C3 (counterexample): with the newsletter checkbox enabled and
required but not accepted, and every other constraint satisfied,
validation passes and the booking network call is issued anyway — the
newsletter checkbox never blocks submission. -/
theorem c3_counterexample :
    cfgNews.checkboxes.newsletter.visible = true ∧
    cfgNews.checkboxes.newsletter.required = true ∧
    stW.customerInfo.newsletterAccepted = false ∧
    (handleBookingSubmit cfgNews stW envPrimaryOk).calls.length = 1 ∧
    (handleBookingSubmit cfgNews stW envPrimaryOk).alert = none := by
  refine ⟨rfl, rfl, rfl, by decide, by decide⟩

/-! ## Claim C4 — fallback policy of the cascade -/

/-- C4 (amended): once validation passes, a slot is selected and the
service is found, the submission issues exactly one primary call and
never retries it; the fallback call is issued iff the primary attempt
settled with a non-success status — a primary network error reaches
the catch block directly and no fallback attempt is made. -/
theorem c4_fallback_iff_primary_non_success (cfg : SubmitConfig)
    (st : SubmitState) (env : SubmitEnv) (slot : TimeSlot) (service : Service)
    (hv : validateBookingForm cfg.checkboxes cfg.formFields st.customerInfo = none)
    (hslot : st.selectedTimeSlot = some slot)
    (hsvc : cfg.activeServices.find? (fun s => s.id = cfg.selectedServiceId) =
      some service) :
    (handleBookingSubmit cfg st env).calls.countP isClientCall = 1 ∧
    ((handleBookingSubmit cfg st env).calls.countP (fun k => !isClientCall k) =
      match env.primary with
      | .error _ => 0
      | .ok r => if r.ok then 0 else 1) ∧
    (∀ msg, env.primary = Except.error msg →
      (handleBookingSubmit cfg st env).alert = some ("Error: " ++ msg)) := by
  rcases env with ⟨prim, fb⟩
  cases prim with
  | error msg =>
    simp [handleBookingSubmit, hv, hslot, hsvc, List.countP_cons, isClientCall]
  | ok r1 =>
    cases hr1 : r1.ok with
    | true =>
      simp [handleBookingSubmit, hv, hslot, hsvc, hr1, finishBooking,
        List.countP_cons, isClientCall]
    | false =>
      cases fb with
      | error msg2 =>
        simp [handleBookingSubmit, hv, hslot, hsvc, hr1, List.countP_cons,
          isClientCall]
      | ok r2 =>
        cases hr2 : r2.ok with
        | true =>
          simp [handleBookingSubmit, hv, hslot, hsvc, hr1, hr2, finishBooking,
            List.countP_cons, isClientCall]
        | false =>
          simp [handleBookingSubmit, hv, hslot, hsvc, hr1, hr2,
            List.countP_cons, isClientCall]

theorem c4_fallback_iff_primary_non_success_witness :
    validateBookingForm cfgW.checkboxes cfgW.formFields stW.customerInfo = none ∧
    (handleBookingSubmit cfgW stW envFallbackOk).calls.countP isClientCall = 1 ∧
    (handleBookingSubmit cfgW stW envFallbackOk).calls.countP
      (fun k => !isClientCall k) = 1 :=
  ⟨by decide, by
    have h := c4_fallback_iff_primary_non_success cfgW stW envFallbackOk slotW
      serviceW (by decide) rfl (by decide)
    refine ⟨h.1, ?_⟩
    have h2 := h.2.1
    simpa [envFallbackOk, respFail422] using h2⟩

/-- C4 (counterexample): when the primary attempt fails with a network
error (rejected promise), no fallback call is made — the cascade ends
with the caught error, contradicting "the fallback attempt is always
made". -/
theorem c4_counterexample :
    (handleBookingSubmit cfgW stW envNetErr).calls.countP
      (fun k => !isClientCall k) = 0 ∧
    (handleBookingSubmit cfgW stW envNetErr).calls.length = 1 ∧
    (handleBookingSubmit cfgW stW envNetErr).alert =
      some "Error: Failed to fetch" := by
  refine ⟨by decide, by decide, by decide⟩

/-! ## Claim C5 — fallback success stores the result and clears the draft -/

/-- C5: when the primary attempt settles non-success and the fallback
attempt succeeds, the stored BookingResult reports the fallback
attempt and the draft (selected date, selected time slot, customer
info with its acceptance flags) is reset to its empty initial
value. -/
theorem c5_fallback_success_clears_draft (cfg : SubmitConfig)
    (st : SubmitState) (env : SubmitEnv) (slot : TimeSlot) (service : Service)
    (r1 r2 : HttpResponse)
    (hv : validateBookingForm cfg.checkboxes cfg.formFields st.customerInfo = none)
    (hslot : st.selectedTimeSlot = some slot)
    (hsvc : cfg.activeServices.find? (fun s => s.id = cfg.selectedServiceId) =
      some service)
    (h1 : env.primary = Except.ok r1) (h1f : r1.ok = false)
    (h2 : env.fallback = Except.ok r2) (h2ok : r2.ok = true) :
    ∃ res, (handleBookingSubmit cfg st env).state.bookingSuccess = some res ∧
      res.apiUsed = "Merchant API (fallback)" ∧
      (handleBookingSubmit cfg st env).state.selectedDate = none ∧
      (handleBookingSubmit cfg st env).state.selectedTimeSlot = none ∧
      (handleBookingSubmit cfg st env).state.customerInfo = emptyCustomerInfo := by
  simp [handleBookingSubmit, hv, hslot, hsvc, h1, h2, h1f, h2ok, finishBooking,
    successState]

theorem c5_fallback_success_clears_draft_witness :
    ∃ res, (handleBookingSubmit cfgW stW envFallbackOk).state.bookingSuccess =
        some res ∧
      res.apiUsed = "Merchant API (fallback)" ∧
      (handleBookingSubmit cfgW stW envFallbackOk).state.selectedDate = none ∧
      (handleBookingSubmit cfgW stW envFallbackOk).state.selectedTimeSlot = none ∧
      (handleBookingSubmit cfgW stW envFallbackOk).state.customerInfo =
        emptyCustomerInfo :=
  c5_fallback_success_clears_draft cfgW stW envFallbackOk slotW serviceW
    respFail422 respOkW (by decide) rfl (by decide) rfl rfl rfl rfl

/-! ## Claim C6 — both attempts fail -/

/-- C6: when both booking attempts settle with non-success statuses,
the submission surfaces an error embedding the last (fallback)
response's status and body, and the whole booking-flow state —
including the draft's selections and customer-entered fields — is left
unchanged for retry. -/
theorem c6_both_fail_preserves_draft (cfg : SubmitConfig)
    (st : SubmitState) (env : SubmitEnv) (slot : TimeSlot) (service : Service)
    (r1 r2 : HttpResponse)
    (hv : validateBookingForm cfg.checkboxes cfg.formFields st.customerInfo = none)
    (hslot : st.selectedTimeSlot = some slot)
    (hsvc : cfg.activeServices.find? (fun s => s.id = cfg.selectedServiceId) =
      some service)
    (h1 : env.primary = Except.ok r1) (h1f : r1.ok = false)
    (h2 : env.fallback = Except.ok r2) (h2f : r2.ok = false) :
    (handleBookingSubmit cfg st env).state = st ∧
    (handleBookingSubmit cfg st env).alert =
      some ("Error: Booking error: " ++ toString r2.status ++ " - " ++
        r2.bodyText) := by
  simp [handleBookingSubmit, hv, hslot, hsvc, h1, h2, h1f, h2f]

theorem c6_both_fail_preserves_draft_witness :
    (handleBookingSubmit cfgW stW envBothFail).state = stW ∧
    (handleBookingSubmit cfgW stW envBothFail).alert =
      some "Error: Booking error: 500 - server down" :=
  c6_both_fail_preserves_draft cfgW stW envBothFail slotW serviceW
    respFail422 respFail500 (by decide) rfl (by decide) rfl rfl rfl rfl

/-! ## Claim C9 — primary payload construction -/

/-- C9 (amended): an optional client field (address, city, zipCode,
company) is present in the payload's client block iff it is
configured-visible and non-empty BEFORE trimming — its sent value is
the trimmed string, so a whitespace-only input is included as the
empty string; the email is sent trimmed and lower-cased; and the
metadata total is `basePrice + apaPrice` as a string when price
display is enabled, else the sentinel "0". -/
theorem optField_spec (b : Bool) (raw v : String) :
    ((if b = true ∧ raw ≠ "" then some (jsTrim raw) else none) = some v) ↔
      (b = true ∧ raw ≠ "" ∧ v = jsTrim raw) := by
  by_cases h : b = true ∧ raw ≠ ""
  · rw [if_pos h]
    constructor
    · intro hv
      exact ⟨h.1, h.2, (Option.some_injective _ hv).symm⟩
    · rintro ⟨_, _, rfl⟩
      rfl
  · rw [if_neg h]
    constructor
    · intro hv
      exact Option.noConfusion hv
    · rintro ⟨h1, h2, _⟩
      exact absurd ⟨h1, h2⟩ h

theorem c9_client_payload_fields (cfg : SubmitConfig) (service : Service)
    (slot : TimeSlot) (ci : CustomerInfo) :
    (∀ v, (buildClientBlock cfg.formFields ci).address = some v ↔
      cfg.formFields.address.visible = true ∧ ci.address ≠ "" ∧
        v = jsTrim ci.address) ∧
    (∀ v, (buildClientBlock cfg.formFields ci).city = some v ↔
      cfg.formFields.city.visible = true ∧ ci.city ≠ "" ∧ v = jsTrim ci.city) ∧
    (∀ v, (buildClientBlock cfg.formFields ci).zipCode = some v ↔
      cfg.formFields.zipCode.visible = true ∧ ci.zipCode ≠ "" ∧
        v = jsTrim ci.zipCode) ∧
    (∀ v, (buildClientBlock cfg.formFields ci).company = some v ↔
      cfg.formFields.company.visible = true ∧ ci.company ≠ "" ∧
        v = jsTrim ci.company) ∧
    (buildClientBlock cfg.formFields ci).email = jsToLower (jsTrim ci.email) ∧
    (buildClientPayload cfg service slot ci).metaData.total_amount =
      (if cfg.features.showPrices = true then
        toString (service.basePrice + service.apaPrice) else "0") := by
  refine ⟨?_, ?_, ?_, ?_, rfl, rfl⟩ <;> intro v
  · exact optField_spec cfg.formFields.address.visible ci.address v
  · exact optField_spec cfg.formFields.city.visible ci.city v
  · exact optField_spec cfg.formFields.zipCode.visible ci.zipCode v
  · exact optField_spec cfg.formFields.company.visible ci.company v

theorem c9_client_payload_fields_witness :
    (buildClientBlock cfgW.formFields ciFilled).email = "ana@mail.com" ∧
    (buildClientPayload cfgW serviceW slotW ciFilled).metaData.total_amount =
      "400" := by
  have h := c9_client_payload_fields cfgW serviceW slotW ciFilled
  refine ⟨?_, ?_⟩
  · rw [h.2.2.2.2.1]; decide
  · rw [h.2.2.2.2.2]; decide

/-- C9 (counterexample): a whitespace-only address with the field
visible is truthy before trimming, so the code includes it in the
client block — as the empty string — although it is blank after
trimming; the claimed "non-empty after trimming" condition does not
hold of the code. -/
theorem c9_counterexample :
    (buildClientBlock ffAddr ciSpaceAddr).address = some "" ∧
    jsTrim ciSpaceAddr.address = "" ∧ ffAddr.address.visible = true := by
  refine ⟨by decide, by decide, rfl⟩

end Reservation
